import Mathlib

/-!
Verification development for the osu.py client library.

The repository ships `osu/client.py` (the ~60 endpoint wrappers). Its
collaborators `osu/http.py` (HTTPHandler: dispatch, rate limiting),
`osu/auth.py` (AuthHandler), and `osu/enums.py` (Scope, Path) are not part
of the source tree here; where a property depends on them they are modelled
from the specification, and each such definition carries a doc comment
saying so. Everything taken from `client.py` is embedded directly.
-/

namespace Osu

/-! ## Scope -/

/-- Modelled from the spec: the fixed vocabulary of OAuth scope tags
(`enums.py`, which defines `Scope`, is absent from the source tree). -/
def valid_scopes : List String :=
  ["public", "identify", "friends.read", "forum.write", "chat.write",
   "chat.write_manage", "chat.read", "lazer", "delegate"]

/-- Modelled from the spec: a `Scope` is a set of string tags drawn from the
fixed vocabulary. -/
structure Scope where
  tags : List String
  deriving DecidableEq, Repr

/-- Modelled from the spec: `Scope` construction validates every tag against
the fixed vocabulary and rejects an empty set (invariant: non-empty, all
tags recognized). -/
def Scope.mk_checked (ts : List String) : Except String Scope :=
  if ts.isEmpty then .error "scope set is empty"
  else if ts.all (fun t => valid_scopes.contains t) then .ok ⟨ts⟩
  else .error "unrecognized scope tag"

/-- Modelled from the spec and the `client.py` docstring: `Scope.default()`
is just the public scope. -/
def Scope.default : Scope := ⟨["public"]⟩

/-- Modelled from the spec: `has_scope` checks that the held set is a
superset of the required set. -/
def Scope.has_scope (held required : Scope) : Bool :=
  required.tags.all (fun t => held.tags.contains t)

def Scope.wellFormed (s : Scope) : Bool :=
  !s.tags.isEmpty && s.tags.all (fun t => valid_scopes.contains t)

/-! ## AuthHandler -/

/-- Modelled from the spec: AuthHandler state (`auth.py` is absent from the
source tree): current access token, optional refresh token, absolute
expiry, the held scope, and whether the credentials were revoked. -/
structure AuthState where
  access_token : String
  refresh_token : Option String
  expires_at : Int
  scope : Scope
  revoked : Bool
  deriving DecidableEq, Repr

/-- Result of `get_token`: the token or an `AuthError`, the updated handler
state, and how many token-endpoint requests were issued. -/
structure TokenResult where
  token : Except Unit String
  state : AuthState
  tokenRequests : Nat
  deriving Repr

/-- The state after a refresh: the token is replaced wholesale by the token
endpoint's response `(freshTok, freshExp)`. -/
def AuthState.refreshed (st : AuthState) (freshTok : String) (freshExp : Int) : AuthState :=
  { st with access_token := freshTok, expires_at := freshExp }

/-- Modelled from the spec: `get_token()` returns the current token when
`now < expires_at`; when expired it performs exactly one refresh (one
token-endpoint request) before returning; after revocation it always fails
with `AuthError`. `(freshTok, freshExp)` model the token endpoint's
response. -/
def get_token (now : Int) (freshTok : String) (freshExp : Int) (st : AuthState) : TokenResult :=
  if st.revoked then ⟨.error (), st, 0⟩
  else if now < st.expires_at then ⟨.ok st.access_token, st, 0⟩
  else ⟨.ok freshTok, st.refreshed freshTok freshExp, 1⟩

/-! ## RequestDispatcher -/

/-- An outbound HTTP request, as recorded in the dispatch log: either a
token-endpoint request or an attempt (0-based) at the target endpoint. -/
inductive ReqEvent where
  | tokenReq : ReqEvent
  | targetReq : Nat → ReqEvent
  deriving DecidableEq, Repr

def ReqEvent.isTarget : ReqEvent → Bool
  | .targetReq _ => true
  | .tokenReq => false

inductive Outcome where
  | success : Outcome
  | scopeError : Outcome
  | authError : Outcome
  | apiError : Nat → Outcome
  deriving DecidableEq, Repr

/-- What one dispatched call produced: the outcome, the ordered log of HTTP
requests it issued, and the final auth state. -/
structure DispatchTrace where
  outcome : Outcome
  log : List ReqEvent
  finalAuth : AuthState
  deriving DecidableEq, Repr

def is2xx (s : Nat) : Bool := 200 ≤ s && s < 300

/-- Modelled from the spec: the dispatcher contract (`http.py` is absent from
the source tree). Per call: (1) check the required scope locally and fail
with `ScopeError` before any network request; (2) rate-limit; (3) obtain a
token via `get_token` (at most one token-endpoint request, `AuthError` after
revocation); (4) issue the request; (5) on 401 force one token refresh and
retry exactly once, a second 401 surfacing as `AuthError`; (6) any other
non-2xx surfaces as `APIError` with no retry. `transport` maps the attempt
number to the HTTP status the remote returns. -/
def dispatch (now : Int) (freshTok : String) (freshExp : Int) (required : Scope)
    (transport : Nat → Nat) (st : AuthState) : DispatchTrace :=
  if Scope.has_scope st.scope required = false then ⟨.scopeError, [], st⟩
  else
    let t := get_token now freshTok freshExp st
    match t.token with
    | .error _ => ⟨.authError, List.replicate t.tokenRequests .tokenReq, t.state⟩
    | .ok _ =>
      let pre : List ReqEvent := List.replicate t.tokenRequests .tokenReq
      let s0 := transport 0
      if s0 = 401 then
        let st2 := t.state.refreshed freshTok freshExp
        let log2 := pre ++ [.targetReq 0, .tokenReq, .targetReq 1]
        let s1 := transport 1
        if s1 = 401 then ⟨.authError, log2, st2⟩
        else if is2xx s1 then ⟨.success, log2, st2⟩
        else ⟨.apiError s1, log2, st2⟩
      else if is2xx s0 then ⟨.success, pre ++ [.targetReq 0], t.state⟩
      else ⟨.apiError s0, pre ++ [.targetReq 0], t.state⟩

/-! ## Single-flight refresh under concurrency -/

/-- Modelled from the spec: the shared auth state seen by concurrent callers.
`tokenGen` is 0 while the stored token is the expired one and 1 once it has
been refreshed; `refreshCount` counts token-endpoint refresh requests. -/
structure SharedAuth where
  tokenGen : Nat
  refreshCount : Nat
  deriving DecidableEq, Repr

/-- Modelled from the spec: the refresh path is guarded by a mutual-exclusion
construct (single-flight), and under the lock a caller re-checks whether the
token is still expired before refreshing. The mutex serializes the critical
sections, so one caller's locked section (re-check, refresh if needed, read
the token) is one atomic step; the value returned is the token generation
the caller observes. -/
def callerStep (s : SharedAuth) : Nat × SharedAuth :=
  if s.tokenGen = 0 then (1, ⟨1, s.refreshCount + 1⟩)
  else (s.tokenGen, s)

/-- Run `n` concurrent callers, each taking its critical section in some
serialization order; returns the list of token generations observed and the
final shared state. Callers are symmetric, so the serialization order is
irrelevant and a count suffices. -/
def runCallers : Nat → SharedAuth → List Nat × SharedAuth
  | 0, s => ([], s)
  | n + 1, s =>
    let (g, s2) := callerStep s
    let (gs, s3) := runCallers n s2
    (g :: gs, s3)

/-! ## RateLimiter -/

/-- Modelled from the spec: rate-limiter state (`http.py` is absent from the
source tree): `nextFree` is the pacing point reached by the last paced
grant (seconds, as a rational), `credits` the remaining burst allowance. -/
structure RLState where
  nextFree : ℚ
  credits : Nat
  deriving DecidableEq, Repr

/-- Modelled from the spec: `acquire()` blocks until it is safe to issue a
request, then records it. A call with burst credit left proceeds
immediately (at the current pacing point); otherwise the call is granted
`min_interval` after the previous grant. Returns the grant time and the new
state. -/
def acquire (minInterval : ℚ) (s : RLState) : ℚ × RLState :=
  if 0 < s.credits then (s.nextFree, ⟨s.nextFree, s.credits - 1⟩)
  else (s.nextFree + minInterval, ⟨s.nextFree + minInterval, s.credits⟩)

/-- The grant times of `n` back-to-back `acquire()` calls. -/
def acquireTimes (minInterval : ℚ) : Nat → RLState → List ℚ
  | 0, _ => []
  | n + 1, s =>
    (acquire minInterval s).1 :: acquireTimes minInterval n (acquire minInterval s).2

/-- The rate-limiter state after `n` back-to-back `acquire()` calls. -/
def runAcquires (minInterval : ℚ) : Nat → RLState → RLState
  | 0, s => s
  | n + 1, s => runAcquires minInterval n (acquire minInterval s).2

/-- The rate-limiter state of a fresh client with burst allowance `burst`,
created at time 0. -/
def RLState.initial (burst : Nat) : RLState := ⟨0, burst⟩

/-- Embedded from `client.py` (`Client.__init__`): the default pacing
parameter `seconds_per_request` is 1. -/
def seconds_per_request_default : ℚ := 1

/-! ## JSON values and dict access (for the endpoint wrappers) -/

/-- A Python/JSON value as handled by the endpoint wrappers in `client.py`. -/
inductive JVal where
  | jnull : JVal
  | jbool : Bool → JVal
  | jnum : Int → JVal
  | jstr : String → JVal
  | jlist : List JVal → JVal
  | jdict : List (String × JVal) → JVal

/-- Python truthiness: `None`, `False`, `0`, and empty strings, lists and
dicts are falsy. -/
def truthy : JVal → Bool
  | .jnull => false
  | .jbool b => b
  | .jnum n => n != 0
  | .jstr s => !s.isEmpty
  | .jlist xs => !xs.isEmpty
  | .jdict es => !es.isEmpty

inductive PyErr where
  | keyError : PyErr
  | typeError : PyErr
  deriving DecidableEq, Repr

/-- Python subscript `j[k]` on a dict: `KeyError` when the key is absent,
`TypeError` when `j` is not a dict. -/
def getKey (j : JVal) (k : String) : Except PyErr JVal :=
  match j with
  | .jdict es =>
    match es.lookup k with
    | some v => .ok v
    | none => .error .keyError
  | _ => .error .typeError

/-- The `Beatmap` response object: an immutable view over the parsed JSON
(field mapping is passthrough glue; `objects.py` is absent from the source
tree). -/
structure BeatmapObj where
  raw : JVal

def Beatmap (j : JVal) : BeatmapObj := ⟨j⟩

/-- Embedded from `client.py` (`Client.get_beatmaps`): the wrapper receives
the dispatcher's parsed response and evaluates
`map(Beatmap, results['beatmaps']) if results else []`. Iterating the `map`
over a non-list is a `TypeError`; subscripting a truthy non-dict or a dict
without the key raises per `getKey`. -/
def get_beatmaps (results : JVal) : Except PyErr (List BeatmapObj) :=
  if truthy results then
    match getKey results "beatmaps" with
    | .ok (.jlist xs) => .ok (xs.map Beatmap)
    | .ok _ => .error .typeError
    | .error e => .error e
  else .ok []

/-! ## Client.search -/

/-- The dict returned by `Client.search`: each entry is `None` or a
`{results, total}` pair. -/
structure SearchDict where
  user : Option (JVal × JVal)
  wiki_page : Option (JVal × JVal)

/-- The condition guarding the `user` entry in `Client.search`:
`mode is None or mode == 'all' or mode == 'user'`. -/
def userCond (mode : Option String) : Bool :=
  match mode with
  | none => true
  | some m => m == "all" || m == "user"

/-- The condition guarding the `wiki_page` entry in `Client.search`:
`mode is None or mode == 'all' or mode == 'wiki_page'`. -/
def wikiCond (mode : Option String) : Bool :=
  match mode with
  | none => true
  | some m => m == "all" || m == "wiki_page"

/-- Evaluates `{'results': resp[key]['data'], 'total': resp[key]['total']}`. -/
def sectionOf (resp : JVal) (key : String) : Except PyErr (JVal × JVal) :=
  match getKey resp key with
  | .error e => .error e
  | .ok sec =>
    match getKey sec "data" with
    | .error e => .error e
    | .ok d =>
      match getKey sec "total" with
      | .error e => .error e
      | .ok t => .ok (d, t)

/-- Embedded from `client.py` (`Client.search`): the wrapper receives the
dispatcher's parsed response and builds the result dict; the `user` and
`wiki_page` entries are conditional expressions evaluating to `None` when
the mode excludes them, so the corresponding response sections are not
accessed. -/
def search (mode : Option String) (resp : JVal) : Except PyErr SearchDict :=
  match (if userCond mode then (sectionOf resp "user").map some else .ok none) with
  | .error e => .error e
  | .ok u =>
    match (if wikiCond mode then (sectionOf resp "wiki_page").map some else .ok none) with
    | .error e => .error e
    | .ok w => .ok ⟨u, w⟩

/-! ## Paths and endpoint calls -/

/-- Modelled from the spec: a resolved endpoint descriptor — the URL
fragment with interpolated resource ids and the minimum scope required to
call it (the module defining `Path` is absent from the source tree). -/
structure PathObj where
  url : String
  requiredScope : String
  deriving DecidableEq, Repr

/-- Modelled from the spec: `Path.user_beatmap_score(beatmap, user)`
interpolates the two ids into the URL fragment; the endpoint requires scope
public. -/
def Path.user_beatmap_score (beatmap user : Int) : PathObj :=
  ⟨"beatmaps/" ++ toString beatmap ++ "/scores/users/" ++ toString user, "public"⟩

/-- Modelled from the spec: the path for the token-revocation endpoint. -/
def Path.revoke_current_token : PathObj :=
  ⟨"oauth/tokens/current", "public"⟩

/-- A keyword-argument value forwarded by an endpoint wrapper. -/
inductive PVal where
  | str : String → PVal
  | strList : List String → PVal
  | int : Int → PVal
  deriving DecidableEq, Repr

/-- Which response-object constructor the endpoint wraps the JSON in. -/
inductive Wrapper where
  | beatmapUserScore : Wrapper
  | beatmapObj : Wrapper
  deriving DecidableEq, Repr

/-- What an endpoint wrapper hands to the dispatcher: the resolved path, the
keyword arguments (a `none` value is Python's `None`), and the response
wrapper applied to the result. -/
structure EndpointCall where
  reqPath : PathObj
  kwargs : List (String × Option PVal)
  wrapper : Wrapper
  deriving DecidableEq, Repr

/-- Embedded from `client.py` (`Client.get_user_beatmap_score`): calls
`self.http.get(Path.user_beatmap_score(beatmap, user), mode=mode, mods=mods)`
and wraps the result in `BeatmapUserScore`. -/
def get_user_beatmap_score (beatmap user : Int) (mode : Option String)
    (mods : Option (List String)) : EndpointCall :=
  ⟨Path.user_beatmap_score beatmap user,
   [("mode", mode.map PVal.str), ("mods", mods.map PVal.strList)],
   .beatmapUserScore⟩

/-- Embedded from `client.py` (`Client.get_user_beatmap_scores`): calls
`self.http.get(Path.user_beatmap_score(beatmap, user), mode=mode)` and wraps
the result in `BeatmapUserScore`. -/
def get_user_beatmap_scores (beatmap user : Int) (mode : Option String) : EndpointCall :=
  ⟨Path.user_beatmap_score beatmap user,
   [("mode", mode.map PVal.str)],
   .beatmapUserScore⟩

/-- Modelled from the spec: the dispatcher issues the HTTP request with the
parameters it is given; a keyword argument whose value is `None` is omitted
from the issued request (standard HTTP-client behavior of the transport the
absent `http.py` delegates to). -/
def issuedParams (ps : List (String × Option PVal)) : List (String × PVal) :=
  ps.filterMap (fun kv => kv.2.map (fun v => (kv.1, v)))

/-- The request actually issued for an endpoint call: resolved path plus the
non-`None` query parameters. -/
def issuedRequest (c : EndpointCall) : PathObj × List (String × PVal) :=
  (c.reqPath, issuedParams c.kwargs)

/-! ## revoke_current_token -/

/-- A positional argument at a `self.http.delete(...)` call site: either the
`Client` object itself or a `Path`. -/
inductive PyArg where
  | clientSelf : PyArg
  | pathArg : PathObj → PyArg
  deriving DecidableEq, Repr

/-- Modelled from the spec: `HTTPHandler.delete` takes the `Path` as its
single positional argument (`dispatch(method, path, params, body)`; every
other `http.delete`/`http.get`/... call site in `client.py` passes exactly
one positional `Path`). Any other positional argument list is a Python
`TypeError` at call time. -/
def http_delete (args : List PyArg) : Except PyErr PathObj :=
  match args with
  | [.pathArg p] => .ok p
  | _ => .error .typeError

/-- Embedded from `client.py` line 1342 (`Client.revoke_current_token`): the
body is `self.http.delete(self, Path.revoke_current_token())`, i.e. the
client object is passed as an extra positional argument before the path. -/
def revoke_current_token_call : Except PyErr PathObj :=
  http_delete [.clientSelf, .pathArg Path.revoke_current_token]

/-! ## Theorems -/

/-- C2: a call whose required scope is not a subset of the held scope set
fails with `ScopeError` before any network I/O — the dispatch log is empty,
so zero HTTP requests (token-endpoint or target) are issued by the call. -/
theorem scope_error_no_network (now : Int) (ft : String) (fe : Int) (required : Scope)
    (transport : Nat → Nat) (st : AuthState)
    (h : Scope.has_scope st.scope required = false) :
    (dispatch now ft fe required transport st).outcome = .scopeError ∧
    (dispatch now ft fe required transport st).log = [] := by
  rw [dispatch, if_pos h]
  exact ⟨rfl, rfl⟩

/-- Witness for `scope_error_no_network`: the spec scenario — a client
holding only the public scope calling an endpoint requiring `identify`. -/
theorem scope_error_no_network_witness :
    (dispatch 0 "fresh" 50 ⟨["identify"]⟩ (fun _ => 200)
      ⟨"tok", none, 100, Scope.default, false⟩).outcome = .scopeError ∧
    (dispatch 0 "fresh" 50 ⟨["identify"]⟩ (fun _ => 200)
      ⟨"tok", none, 100, Scope.default, false⟩).log = [] :=
  scope_error_no_network 0 "fresh" 50 ⟨["identify"]⟩ (fun _ => 200)
    ⟨"tok", none, 100, Scope.default, false⟩ rfl

/-- C9: `get_user_beatmap_scores(beatmap, user, mode)` issues the same
request — same `Path.user_beatmap_score(beatmap, user)` path and the same
issued query parameters — as `get_user_beatmap_score(beatmap, user, mode,
mods=None)`, and applies the same response wrapper (`BeatmapUserScore`). -/
theorem get_user_beatmap_scores_refines (beatmap user : Int) (mode : Option String) :
    issuedRequest (get_user_beatmap_scores beatmap user mode) =
      issuedRequest (get_user_beatmap_score beatmap user mode none) ∧
    (get_user_beatmap_scores beatmap user mode).wrapper =
      (get_user_beatmap_score beatmap user mode none).wrapper := by
  cases mode <;> exact ⟨rfl, rfl⟩

/-- C6: `Client.revoke_current_token` passes the client object as an extra
positional argument to `http.delete` (its body is
`self.http.delete(self, Path.revoke_current_token())`), which is a Python
`TypeError`; the correctly-formed call with only the path would have
succeeded. Hence the revoke request is never issued and the `Revoked` state
is not reachable through this operation. -/
theorem revoke_current_token_type_error :
    revoke_current_token_call = .error .typeError ∧
    http_delete [.pathArg Path.revoke_current_token] = .ok Path.revoke_current_token :=
  ⟨rfl, rfl⟩

/-- C1: when the first attempt at the target returns 401, the dispatcher
forces exactly one token refresh and retries exactly once: the log ends in
first attempt, one token-endpoint request, second attempt — and nothing
follows, so no third attempt is issued; if the retry also returns 401 the
call surfaces `AuthError`. (`pre` is the at-most-one token request
`get_token` may have issued before the first attempt.) -/
theorem retry_once_on_401 (now : Int) (ft : String) (fe : Int) (required : Scope)
    (transport : Nat → Nat) (st : AuthState)
    (hscope : Scope.has_scope st.scope required = true)
    (hrev : st.revoked = false)
    (h401 : transport 0 = 401) :
    (∃ pre, (pre = ([] : List ReqEvent) ∨ pre = [ReqEvent.tokenReq]) ∧
      (dispatch now ft fe required transport st).log =
        pre ++ [.targetReq 0, .tokenReq, .targetReq 1]) ∧
    (transport 1 = 401 →
      (dispatch now ft fe required transport st).outcome = .authError) := by
  by_cases hexp : now < st.expires_at
  · simp only [dispatch, get_token, hscope, hrev, hexp, if_true, if_false,
      Bool.false_eq_true, reduceIte, h401, List.replicate]
    refine ⟨⟨[], Or.inl rfl, ?_⟩, ?_⟩
    · repeat' split
      all_goals simp_all
    · intro h1
      simp [h1]
  · simp only [dispatch, get_token, hscope, hrev, hexp, if_true, if_false,
      Bool.false_eq_true, reduceIte, h401, List.replicate]
    refine ⟨⟨[ReqEvent.tokenReq], Or.inr rfl, ?_⟩, ?_⟩
    · repeat' split
      all_goals simp_all
    · intro h1
      simp [h1]

/-- Witness for `retry_once_on_401`: a valid-token client whose transport
answers 401 to every attempt. -/
theorem retry_once_on_401_witness :
    (∃ pre, (pre = ([] : List ReqEvent) ∨ pre = [ReqEvent.tokenReq]) ∧
      (dispatch 0 "fresh" 50 Scope.default (fun _ => 401)
        ⟨"tok", none, 100, Scope.default, false⟩).log =
        pre ++ [.targetReq 0, .tokenReq, .targetReq 1]) ∧
    ((fun _ => 401 : Nat → Nat) 1 = 401 →
      (dispatch 0 "fresh" 50 Scope.default (fun _ => 401)
        ⟨"tok", none, 100, Scope.default, false⟩).outcome = .authError) :=
  retry_once_on_401 0 "fresh" 50 Scope.default (fun _ => 401)
    ⟨"tok", none, 100, Scope.default, false⟩ rfl rfl rfl

/-- C3: `get_token()` returns the stored token, issues zero token-endpoint
requests and leaves the state unchanged while `now < expires_at`; once
expired it issues exactly one token-endpoint request, replaces the token
wholesale and returns the fresh one; and a dispatched endpoint call made
with an expired token issues exactly one token-endpoint request before the
first target request. -/
theorem get_token_refresh_discipline (now : Int) (ft : String) (fe : Int) (st : AuthState)
    (hrev : st.revoked = false) :
    (now < st.expires_at → get_token now ft fe st = ⟨.ok st.access_token, st, 0⟩) ∧
    (st.expires_at ≤ now →
      (get_token now ft fe st).tokenRequests = 1 ∧
      (get_token now ft fe st).token = .ok ft ∧
      (get_token now ft fe st).state = st.refreshed ft fe) ∧
    (∀ required transport, Scope.has_scope st.scope required = true →
      st.expires_at ≤ now →
      ((dispatch now ft fe required transport st).log.takeWhile
        (fun e => !e.isTarget)) = [.tokenReq]) := by
  refine ⟨?_, ?_, ?_⟩
  · intro hexp
    simp [get_token, hrev, hexp]
  · intro hexp
    simp [get_token, hrev, not_lt.mpr hexp]
  · intro required transport hscope hexp
    simp only [dispatch, get_token, hscope, hrev, not_lt.mpr hexp, if_true, if_false,
      Bool.false_eq_true, reduceIte, List.replicate]
    repeat' split
    all_goals simp_all [ReqEvent.isTarget, List.takeWhile]

/-- Witness for `get_token_refresh_discipline`: a token with
`expires_at = now - 1`; the call issues one token request before the target
request. -/
theorem get_token_refresh_discipline_witness :
    ((0 : Int) < (-1 : Int) →
      get_token 0 "fresh" 50 ⟨"tok", none, -1, Scope.default, false⟩ =
        ⟨.ok "tok", ⟨"tok", none, -1, Scope.default, false⟩, 0⟩) ∧
    ((-1 : Int) ≤ 0 →
      (get_token 0 "fresh" 50 ⟨"tok", none, -1, Scope.default, false⟩).tokenRequests = 1 ∧
      (get_token 0 "fresh" 50 ⟨"tok", none, -1, Scope.default, false⟩).token = .ok "fresh" ∧
      (get_token 0 "fresh" 50 ⟨"tok", none, -1, Scope.default, false⟩).state =
        AuthState.refreshed ⟨"tok", none, -1, Scope.default, false⟩ "fresh" 50) ∧
    (∀ required transport,
      Scope.has_scope (Scope.mk ["public"]) required = true →
      (-1 : Int) ≤ 0 →
      ((dispatch 0 "fresh" 50 required transport
        ⟨"tok", none, -1, Scope.default, false⟩).log.takeWhile
          (fun e => !e.isTarget)) = [.tokenReq]) :=
  get_token_refresh_discipline 0 "fresh" 50 ⟨"tok", none, -1, Scope.default, false⟩ rfl

/-- Once the token has been refreshed (generation 1), later callers neither
refresh again nor change the shared state, and each observes generation 1. -/
theorem runCallers_after_refresh (m c : Nat) :
    runCallers m ⟨1, c⟩ = (List.replicate m 1, ⟨1, c⟩) := by
  induction m with
  | zero => rfl
  | succ n ih => simp [runCallers, callerStep, ih, List.replicate]

/-- C4: any positive number of concurrent callers that observe an expired
token (generation 0) issue exactly one refresh request in total, and every
caller observes the refreshed token (generation 1). -/
theorem single_flight_refresh (n : Nat) (h : 1 ≤ n) :
    (runCallers n ⟨0, 0⟩).2.refreshCount = 1 ∧
    (runCallers n ⟨0, 0⟩).1 = List.replicate n 1 := by
  obtain ⟨m, rfl⟩ : ∃ m, n = m + 1 := ⟨n - 1, (Nat.succ_pred_eq_of_pos h).symm⟩
  simp [runCallers, callerStep, runCallers_after_refresh, List.replicate]

/-- Witness for `single_flight_refresh`: five concurrent callers. -/
theorem single_flight_refresh_witness :
    (runCallers 5 ⟨0, 0⟩).2.refreshCount = 1 ∧
    (runCallers 5 ⟨0, 0⟩).1 = List.replicate 5 1 :=
  single_flight_refresh 5 (by decide)

/-- In every branch of `acquire`, the state's pacing point after the call is
exactly the grant time returned. -/
theorem acquire_nextFree_eq_grant (minInterval : ℚ) (s : RLState) :
    ((acquire minInterval s).2).nextFree = (acquire minInterval s).1 := by
  unfold acquire
  split <;> rfl

/-- The pacing point after `n` acquires from state `⟨t, c⟩`: the `c` burst
credits are spent first (no pacing), after which each call advances the
point by `min_interval`. -/
theorem runAcquires_nextFree (minInterval : ℚ) (n : Nat) :
    ∀ t : ℚ, ∀ c : Nat,
      (runAcquires minInterval n ⟨t, c⟩).nextFree = t + ((n - c : Nat) : ℚ) * minInterval := by
  induction n with
  | zero => intro t c; simp [runAcquires]
  | succ m ih =>
    intro t c
    match c with
    | 0 =>
      rw [runAcquires]
      have ha : (acquire minInterval ⟨t, 0⟩).2 = ⟨t + minInterval, 0⟩ := by
        unfold acquire; rfl
      rw [ha, ih (t + minInterval) 0]
      simp only [Nat.sub_zero]
      push_cast
      ring
    | k + 1 =>
      rw [runAcquires]
      have ha : (acquire minInterval ⟨t, k + 1⟩).2 = ⟨t, k⟩ := by
        simp [acquire]
      rw [ha, ih t k, Nat.succ_sub_succ]

/-- The grant times of `n + 1` acquires end at the final pacing point,
whatever the `getLastD` default. -/
theorem acquireTimes_getLast (minInterval : ℚ) (n : Nat) :
    ∀ (d : ℚ) (s : RLState),
      (acquireTimes minInterval (n + 1) s).getLastD d =
        (runAcquires minInterval (n + 1) s).nextFree := by
  induction n with
  | zero =>
    intro d s
    simp [acquireTimes, runAcquires, acquire_nextFree_eq_grant]
  | succ m ih =>
    intro d s
    have h1 : acquireTimes minInterval (m + 1 + 1) s =
        (acquire minInterval s).1 ::
          acquireTimes minInterval (m + 1) (acquire minInterval s).2 := rfl
    have h2 : runAcquires minInterval (m + 1 + 1) s =
        runAcquires minInterval (m + 1) (acquire minInterval s).2 := rfl
    rw [h1, h2, List.getLastD_cons]
    exact ih _ _

/-- C5: `K` back-to-back `acquire()` calls on a fresh limiter with burst
allowance `burst` finish exactly `(K - burst) * min_interval` after the
start (so they take at least that much wall-clock time), and with the
default `seconds_per_request = 1` and no burst two sequential acquires are
granted at times 1 and 2 — separated by one second. -/
theorem rate_limiter_pacing (minInterval : ℚ) (K burst : Nat) :
    (acquireTimes minInterval K (RLState.initial burst)).getLastD 0 =
      ((K - burst : Nat) : ℚ) * minInterval ∧
    acquireTimes seconds_per_request_default 2 (RLState.initial 0) = [1, 2] := by
  constructor
  · match K with
    | 0 => simp [acquireTimes]
    | n + 1 =>
      have hinit : RLState.initial burst = ⟨0, burst⟩ := rfl
      rw [hinit, acquireTimes_getLast, runAcquires_nextFree]
      rw [zero_add]
  · have h1 : acquireTimes seconds_per_request_default 2 (RLState.initial 0) =
        [0 + 1, 0 + 1 + 1] := by
      norm_num [acquireTimes, acquire, RLState.initial, seconds_per_request_default]
    rw [h1]
    norm_num

/-- C7: a successfully constructed `Scope` is non-empty with every tag in
the recognized vocabulary; the default scope is exactly `public`; and no
dispatched operation ever changes the client's held scope. -/
theorem scope_set_invariant :
    (∀ ts s, Scope.mk_checked ts = .ok s →
      s.tags ≠ [] ∧ ∀ t ∈ s.tags, t ∈ valid_scopes) ∧
    Scope.default.tags = ["public"] ∧
    Scope.default.wellFormed = true ∧
    (∀ now ft fe required transport st,
      (dispatch now ft fe required transport st).finalAuth.scope = st.scope) := by
  refine ⟨?_, rfl, rfl, ?_⟩
  · intro ts s h
    unfold Scope.mk_checked at h
    by_cases h1 : ts.isEmpty = true
    · rw [if_pos h1] at h
      exact Except.noConfusion h
    · rw [if_neg h1] at h
      by_cases h2 : ts.all (fun t => valid_scopes.contains t) = true
      · rw [if_pos h2] at h
        injection h with h3
        subst h3
        refine ⟨?_, ?_⟩
        · intro hnil
          exact h1 (by simp [show ts = [] from hnil])
        · intro t ht
          have hc := List.all_eq_true.mp h2 t ht
          simpa using hc
      · rw [if_neg h2] at h
        exact Except.noConfusion h
  · intro now ft fe required transport st
    unfold dispatch get_token
    dsimp only
    repeat' split
    all_goals rfl

/-- Witness for `scope_set_invariant`: constructing a scope from two
recognized tags. -/
theorem scope_set_invariant_witness :
    (Scope.mk ["identify", "chat.write"]).tags ≠ [] ∧
    ∀ t ∈ (Scope.mk ["identify", "chat.write"]).tags, t ∈ valid_scopes :=
  scope_set_invariant.1 ["identify", "chat.write"] (Scope.mk ["identify", "chat.write"]) rfl

/-- C8: `get_beatmaps` returns the empty list whenever the dispatcher's
response is falsy (absent/empty) — without touching the `beatmaps` key —
and otherwise returns exactly the elements of the response's `beatmaps`
field, each wrapped by the `Beatmap` constructor. -/
theorem get_beatmaps_shape (results : JVal) :
    (truthy results = false → get_beatmaps results = .ok []) ∧
    (∀ xs, truthy results = true → getKey results "beatmaps" = .ok (.jlist xs) →
      get_beatmaps results = .ok (xs.map Beatmap)) := by
  constructor
  · intro h
    simp [get_beatmaps, h]
  · intro xs h hk
    simp [get_beatmaps, h, hk]

/-- Witness for `get_beatmaps_shape`: a falsy (`None`) response yields `[]`;
a response carrying one beatmap yields that beatmap wrapped. -/
theorem get_beatmaps_shape_witness :
    get_beatmaps .jnull = .ok [] ∧
    get_beatmaps (.jdict [("beatmaps", .jlist [.jnum 7])]) =
      .ok ([JVal.jnum 7].map Beatmap) :=
  ⟨(get_beatmaps_shape .jnull).1 rfl,
   (get_beatmaps_shape (.jdict [("beatmaps", .jlist [.jnum 7])])).2 [.jnum 7] rfl rfl⟩

/-- One entry of the `search` result dict: if its guard is false the entry
is `None`; if the entry is present, it is exactly the wrapped section. -/
theorem search_entry_of_ok (c : Bool) (x : Except PyErr (JVal × JVal))
    (u : Option (JVal × JVal))
    (h : (if c then x.map some else .ok none) = .ok u) :
    (c = false → u = none) ∧ (∀ p, u = some p → x = .ok p) := by
  cases c
  · simp only [Bool.false_eq_true, if_false, reduceIte] at h
    cases h
    refine ⟨fun _ => rfl, ?_⟩
    intro p hp
    cases hp
  · simp only [if_true] at h
    cases x with
    | error e => simp [Except.map] at h
    | ok q =>
      simp only [Except.map] at h
      cases h
      refine ⟨?_, ?_⟩
      · intro hc
        exact Bool.noConfusion hc
      · intro p hp
        cases hp
        rfl

/-- C10: in the dict returned by `Client.search`, the `user` entry is `None`
unless `mode` is `None`, `all` or `user`, and the `wiki_page` entry is
`None` unless `mode` is `None`, `all` or `wiki_page`; a present entry holds
exactly the corresponding response section's `data` (under `results`) and
`total` (under `total`). -/
theorem search_result_shape (mode : Option String) (resp : JVal) (res : SearchDict)
    (h : search mode resp = .ok res) :
    (¬(mode = none ∨ mode = some "all" ∨ mode = some "user") → res.user = none) ∧
    (¬(mode = none ∨ mode = some "all" ∨ mode = some "wiki_page") →
      res.wiki_page = none) ∧
    (∀ d t, res.user = some (d, t) → sectionOf resp "user" = .ok (d, t)) ∧
    (∀ d t, res.wiki_page = some (d, t) → sectionOf resp "wiki_page" = .ok (d, t)) := by
  have hu_iff : userCond mode = true ↔
      (mode = none ∨ mode = some "all" ∨ mode = some "user") := by
    cases mode <;> simp [userCond]
  have hw_iff : wikiCond mode = true ↔
      (mode = none ∨ mode = some "all" ∨ mode = some "wiki_page") := by
    cases mode <;> simp [wikiCond]
  unfold search at h
  cases h1 : (if userCond mode then (sectionOf resp "user").map some
      else .ok none) with
  | error e => rw [h1] at h; cases h
  | ok u =>
    rw [h1] at h
    cases h2 : (if wikiCond mode then (sectionOf resp "wiki_page").map some
        else .ok none) with
    | error e => rw [h2] at h; cases h
    | ok w =>
      rw [h2] at h
      cases h
      have hue := search_entry_of_ok _ _ _ h1
      have hwe := search_entry_of_ok _ _ _ h2
      refine ⟨?_, ?_, ?_, ?_⟩
      · intro hnot
        refine hue.1 ?_
        cases hcb : userCond mode
        · rfl
        · exact absurd (hu_iff.mp hcb) hnot
      · intro hnot
        refine hwe.1 ?_
        cases hcb : wikiCond mode
        · rfl
        · exact absurd (hw_iff.mp hcb) hnot
      · intro d t hdt
        exact hue.2 (d, t) hdt
      · intro d t hdt
        exact hwe.2 (d, t) hdt

/-- Witness for `search_result_shape`: `mode = "user"` with a response whose
`user` section carries `data = []`, `total = 5`; the `wiki_page` entry is
`None` and the `user` entry holds the section. -/
theorem search_result_shape_witness :
    (¬((some "user" : Option String) = none ∨ some "user" = some "all" ∨
        some "user" = some "user") →
      (⟨some (.jlist [], .jnum 5), none⟩ : SearchDict).user = none) ∧
    (¬((some "user" : Option String) = none ∨ some "user" = some "all" ∨
        some "user" = some "wiki_page") →
      (⟨some (.jlist [], .jnum 5), none⟩ : SearchDict).wiki_page = none) ∧
    (∀ d t, (⟨some (.jlist [], .jnum 5), none⟩ : SearchDict).user = some (d, t) →
      sectionOf (.jdict [("user", .jdict [("data", .jlist []), ("total", .jnum 5)])])
        "user" = .ok (d, t)) ∧
    (∀ d t, (⟨some (.jlist [], .jnum 5), none⟩ : SearchDict).wiki_page = some (d, t) →
      sectionOf (.jdict [("user", .jdict [("data", .jlist []), ("total", .jnum 5)])])
        "wiki_page" = .ok (d, t)) :=
  search_result_shape (some "user")
    (.jdict [("user", .jdict [("data", .jlist []), ("total", .jnum 5)])])
    ⟨some (.jlist [], .jnum 5), none⟩ rfl

end Osu
